import Mathlib

/-!
Shallow embedding of the `wing-zacharias/libconfig` Go binding
(`src/LibConfig.go`).  The Go file is a thin cgo wrapper around the C
libconfig engine; the wrapper's own control flow (error propagation,
the global `sync.RWMutex`, the write-after-mutate calls) is translated
here directly from the Go source.  The C engine itself
(`config_lookup`, `config_setting_set_int`, `config_setting_add`, ...)
is not part of the repository's sources, so those operations are
modelled from the specification's description of the settings-tree
engine; each such definition carries a doc comment starting with
`Modelled from the spec:`.

Pointers are modelled as `Option Nat` indices into an arena of setting
records owned by a `ConfigT`; the Go `error` interface is modelled by
`Option GoErr`; a C double payload is modelled opaquely (the claims
only move float payloads around, never compute with them).  A call
that dereferences a nil pointer is modelled by `Exec.crash`, and a
call that would wait forever on the process-wide mutex by
`Exec.blocks`.
-/

namespace LibCfg

/-- The Go `ValueType` constants (`CConfigTypeNone` .. `CConfigTypeList`),
mirroring `enum config_type` of the C engine. -/
inductive ValueType where
  | CConfigTypeNone
  | CConfigTypeGroup
  | CConfigTypeInt
  | CConfigTypeInt64
  | CConfigTypeFloat
  | CConfigTypeString
  | CConfigTypeBool
  | CConfigTypeArray
  | CConfigTypeList
deriving DecidableEq, Repr

open ValueType

/-- True for the five scalar kinds of the value model. -/
def isScalarKind : ValueType → Bool
  | CConfigTypeInt | CConfigTypeInt64 | CConfigTypeFloat
  | CConfigTypeString | CConfigTypeBool => true
  | _ => false

/-- True for the three container kinds (group, array, list). -/
def isContainerKind : ValueType → Bool
  | CConfigTypeGroup | CConfigTypeArray | CConfigTypeList => true
  | _ => false

/-- Model of a C `double` payload.  The claims never compute with
floating-point values, only store and retrieve them, so the payload is
kept abstract as a bit pattern; `⟨0⟩` stands for the literal `0.0`. -/
structure CDouble where
  bits : Nat
deriving DecidableEq, Repr

/-- Scalar payload stored in a setting (the C value union). -/
inductive CValue where
  | vNone
  | vInt (i : Int)
  | vInt64 (i : Int)
  | vFloat (f : CDouble)
  | vBool (b : Bool)
  | vStr (s : String)
deriving DecidableEq, Repr

/-- Model of the C `struct config_setting_t`: kind tag, optional name,
scalar payload, ordered child handles, and a nullable parent handle.
Handles are indices into the owning `ConfigT.settings` arena. -/
structure CSetting where
  name : Option String
  type : ValueType
  value : CValue
  children : List Nat
  parent : Option Nat
deriving DecidableEq, Repr

/-- Model of the C `struct config_t`: the arena of settings, the root
handle, and the two formatting fields the Go wrapper touches
(`tab_width`, `default_format`).  `tab_width` models the C `unsigned
short` field as a natural number below `2 ^ 16`. -/
structure ConfigT where
  settings : List CSetting
  root : Option Nat
  tab_width : Nat
  default_format : Int
deriving DecidableEq, Repr

/-- Model of a Go `error` value produced by `(*LibConfig).error`: the
wrapper only ever formats the C error state into a string, so the
model records the `operation` argument that names the failing call. -/
structure GoErr where
  operation : String
deriving DecidableEq, Repr

/-- The Go `LibConfig` struct: the remembered backing file name and the
embedded C configuration. -/
structure LibConfig where
  configFile : String
  cConf : ConfigT
deriving DecidableEq, Repr

/-- The Go `Setting` struct.  `libConf` is the handle (index into the
process state's tree list) of the owning `LibConfig`; `cSetting` is
the nullable C setting pointer. -/
structure Setting where
  propPath : String
  libConf : Nat
  cSetting : Option Nat
deriving DecidableEq, Repr

/-- State of the process-wide `sync.RWMutex` stored in the global
`mutex` variable.  `gen` identifies the current mutex object (a fresh
object gets a fresh generation), `readers`/`writer` count the holds on
the current object. -/
structure LockState where
  gen : Nat
  readers : Nat
  writer : Bool
deriving DecidableEq, Repr

/-- Process-wide state for the wrapper: the global mutex, the heap of
`LibConfig` objects (handles are indices), the log of successful
backing-store writes, and three oracles standing for the external file
system and parser: `ioOk p` says whether `config_write_file` to path
`p` succeeds, `store p` gives the parse result of reading path `p`
(`none` models a read or parse failure), and `parse txt` gives the
result of `config_read_string` on the text `txt` (`none` models a
parse failure). -/
structure GoState where
  lock : LockState
  trees : List LibConfig
  written : List String
  ioOk : String → Bool
  store : String → Option ConfigT
  parse : String → Option ConfigT

/-- Outcome of running a wrapper call: a normal return, blocking
forever on the mutex, or a crash (nil-pointer dereference / failed
type assertion). -/
inductive Exec (α : Type) where
  | done (a : α)
  | blocks
  | crash
deriving DecidableEq, Repr

/-- Normal result of an `Exec`, if any. -/
def Exec.res? : Exec α → Option α
  | .done a => some a
  | _ => none

/-- Whether the call blocked forever. -/
def Exec.isBlocks : Exec α → Bool
  | .blocks => true
  | _ => false

/-- Whether the call returned normally. -/
def Exec.isDone : Exec α → Bool
  | .done _ => true
  | _ => false

/-- Model of a Go `interface{}` value passed to the typed setters:
the dynamic types the wrapper asserts (`int`, `int64`, `float64`,
`bool`, `string`). -/
inductive GoValue where
  | gInt (i : Int)
  | gInt64 (i : Int)
  | gFloat (f : CDouble)
  | gBool (b : Bool)
  | gStr (s : String)
deriving DecidableEq, Repr

/-- Whether a `GoValue`'s dynamic type matches the type assertion the
wrapper performs for the given requested kind. -/
def valueMatches : ValueType → GoValue → Bool
  | CConfigTypeInt, .gInt _ => true
  | CConfigTypeInt64, .gInt64 _ => true
  | CConfigTypeFloat, .gFloat _ => true
  | CConfigTypeBool, .gBool _ => true
  | CConfigTypeString, .gStr _ => true
  | _, _ => false

/-- Two's-complement truncation of a Go `int` to a C `int`
(the `C.int(...)` conversion). -/
def wrap32 (i : Int) : Int := ((i + 2 ^ 31) % 2 ^ 32) - 2 ^ 31

/-- Two's-complement truncation to a C `long long`
(the `C.longlong(...)` conversion). -/
def wrap64 (i : Int) : Int := ((i + 2 ^ 63) % 2 ^ 64) - 2 ^ 63

/-- Reading a C `unsigned short` field through the Go `int16(...)`
conversion, as `ConfigGetTabWidth` does. -/
def int16OfUShort (v : Nat) : Int :=
  if v < 2 ^ 15 then (v : Int) else (v : Int) - 2 ^ 16

/-- Go's `C.GoString`: converts a C string pointer to a Go string;
for a NULL pointer it returns the empty string. -/
def GoString : Option String → String
  | some s => s
  | none => ""

/- ## Modelled C engine operations -/

/-- Modelled from the spec: the name-based child search the engine
uses for group members (the C `config_setting_get_member` scan). -/
def childNamed (cfg : ConfigT) (children : List Nat) (n : String) : Option Nat :=
  children.find? (fun c =>
    match cfg.settings[c]? with
    | some cs => cs.name == some n
    | none => false)

/-- Modelled from the spec: the common core of the C scalar setters
(`config_setting_set_int` and friends, absent from src/): the write
succeeds, storing the payload, exactly when the setting's kind equals
the written kind; otherwise the setting is left unchanged and the call
fails (`none`, the C `CONFIG_FALSE`). -/
def setScalar (cfg : ConfigT) (h : Nat) (vt : ValueType) (v : CValue) :
    Option ConfigT :=
  match cfg.settings[h]? with
  | some s =>
      if s.type = vt then
        some { cfg with settings := cfg.settings.set h { s with value := v } }
      else none
  | none => none

/-- Modelled from the spec: the C scalar getter for `int`
(`config_setting_get_int`, absent from src/): returns the stored
payload when the kind matches and `0` otherwise. -/
def config_setting_get_int (s : CSetting) : Int :=
  if s.type = CConfigTypeInt then
    match s.value with
    | .vInt i => i
    | _ => 0
  else 0

/-- Modelled from the spec: `config_setting_get_int64` (absent from
src/): the stored payload on a kind match, `0` otherwise. -/
def config_setting_get_int64 (s : CSetting) : Int :=
  if s.type = CConfigTypeInt64 then
    match s.value with
    | .vInt64 i => i
    | _ => 0
  else 0

/-- Modelled from the spec: `config_setting_get_float` (absent from
src/): the stored payload on a kind match, `0.0` otherwise. -/
def config_setting_get_float (s : CSetting) : CDouble :=
  if s.type = CConfigTypeFloat then
    match s.value with
    | .vFloat f => f
    | _ => ⟨0⟩
  else ⟨0⟩

/-- Modelled from the spec: `config_setting_get_bool` (absent from
src/): `1` for a stored true, `0` for a stored false or a kind
mismatch. -/
def config_setting_get_bool (s : CSetting) : Int :=
  if s.type = CConfigTypeBool then
    match s.value with
    | .vBool b => if b then 1 else 0
    | _ => 0
  else 0

/-- Modelled from the spec: `config_setting_get_string` (absent from
src/): the stored string on a kind match, the NULL pointer (`none`)
otherwise. -/
def config_setting_get_string (s : CSetting) : Option String :=
  if s.type = CConfigTypeString then
    match s.value with
    | .vStr str => some str
    | _ => none
  else none

/-- Modelled from the spec: the element setters
(`config_setting_set_int_elem` and friends, absent from src/).  Per
the spec's `set_element` contract the parent must be a list or array,
the index must lie in `[0, length)`, and the write is a typed scalar
write on the element; on success the mutated element's handle is
returned, on any failure the C functions return NULL (`none`) and the
tree is unchanged. -/
def setElemScalar (cfg : ConfigT) (h : Nat) (idx : Int) (vt : ValueType)
    (v : CValue) : Option (ConfigT × Nat) :=
  match cfg.settings[h]? with
  | none => none
  | some p =>
      if p.type = CConfigTypeArray ∨ p.type = CConfigTypeList then
        if 0 ≤ idx ∧ idx < (p.children.length : Int) then
          match p.children[idx.toNat]? with
          | some e => (setScalar cfg e vt v).map (fun cfg2 => (cfg2, e))
          | none => none
        else none
      else none

/-- Default payload a freshly added setting of a given kind carries. -/
def defaultValue : ValueType → CValue
  | CConfigTypeInt => .vInt 0
  | CConfigTypeInt64 => .vInt64 0
  | CConfigTypeFloat => .vFloat ⟨0⟩
  | CConfigTypeBool => .vBool false
  | CConfigTypeString => .vStr ""
  | _ => .vNone

/-- Append a fresh child of kind `vt` under parent handle `h`
(whose record is `p`), returning the updated tree and the new child's
handle. -/
def appendChild (cfg : ConfigT) (h : Nat) (p : CSetting)
    (childName : Option String) (vt : ValueType) : ConfigT × Nat :=
  let idx := cfg.settings.length
  let child : CSetting :=
    { name := childName, type := vt, value := defaultValue vt
      children := [], parent := some h }
  ({ cfg with settings :=
      (cfg.settings.set h { p with children := p.children ++ [idx] }) ++ [child] },
   idx)

/-- Modelled from the spec: `config_setting_add` (absent from src/).
Appends a new child of the given kind: to a group the child is named
and a duplicate name fails (`DuplicateName`, the C NULL return); to a
list the child is unnamed; to an array the child is unnamed and its
kind must be scalar and agree with the existing elements; on a
non-container parent the call fails. -/
def config_setting_add (cfg : ConfigT) (h : Nat) (nm : String)
    (vt : ValueType) : Option (ConfigT × Nat) :=
  match cfg.settings[h]? with
  | none => none
  | some p =>
      match p.type with
      | CConfigTypeGroup =>
          if (childNamed cfg p.children nm).isSome then none
          else some (appendChild cfg h p (some nm) vt)
      | CConfigTypeList => some (appendChild cfg h p none vt)
      | CConfigTypeArray =>
          if isScalarKind vt
              && (match p.children.head? with
                  | none => true
                  | some e =>
                      match cfg.settings[e]? with
                      | some es => es.type == vt
                      | none => false) then
            some (appendChild cfg h p none vt)
          else none
      | _ => none

/-- One segment of a lookup path: a name, or a bracketed index. -/
inductive Seg where
  | nameSeg (s : String)
  | idxSeg (n : Nat)
deriving DecidableEq, Repr

/-- Split a character list on `.` separators (the path grammar's
segment separator), accumulating the current segment in reverse. -/
def splitOnDot : List Char → List Char → List (List Char)
  | [], acc => [acc.reverse]
  | ch :: rest, acc =>
      if ch = '.' then acc.reverse :: splitOnDot rest []
      else splitOnDot rest (ch :: acc)

/-- The numeric value of a decimal digit character, if it is one. -/
def digitVal? (c : Char) : Option Nat :=
  if c.isDigit then some (c.toNat - 48) else none

/-- The value of a nonempty all-digit character run. -/
def digitsToNatAux : List Char → Nat → Option Nat
  | [], acc => some acc
  | c :: rest, acc =>
      match digitVal? c with
      | some d => digitsToNatAux rest (acc * 10 + d)
      | none => none

/-- Modelled from the spec: parsing one dot-separated path segment;
a nonempty digit run between `[` and `]` selects a positional element,
anything else is a name. -/
def parseSeg (cs : List Char) : Seg :=
  match cs with
  | '[' :: rest =>
      match rest.getLast? with
      | some lastc =>
          if lastc = ']' ∧ rest.dropLast ≠ [] then
            match digitsToNatAux rest.dropLast 0 with
            | some n => .idxSeg n
            | none => .nameSeg (String.mk cs)
          else .nameSeg (String.mk cs)
      | none => .nameSeg (String.mk cs)
  | _ => .nameSeg (String.mk cs)

/-- Modelled from the spec: splitting a path on dots into segments. -/
def pathSegs (p : String) : List Seg := (splitOnDot p.toList []).map parseSeg

/-- Modelled from the spec: structural path resolution of the C
`config_lookup`/`config_setting_lookup` (absent from src/).  A name
segment must resolve against a group's named child; an index segment
must be a valid position `0 ≤ i < length` of a container; any failure
(missing name, index out of range, indexing into a scalar) yields the
single NULL result `none`. -/
def lookupFrom (cfg : ConfigT) : Nat → List Seg → Option Nat
  | h, [] => some h
  | h, seg :: rest =>
      match cfg.settings[h]? with
      | none => none
      | some s =>
          match seg with
          | .nameSeg n =>
              if s.type = CConfigTypeGroup then
                match childNamed cfg s.children n with
                | some c => lookupFrom cfg c rest
                | none => none
              else none
          | .idxSeg i =>
              if isContainerKind s.type then
                match s.children[i]? with
                | some c => lookupFrom cfg c rest
                | none => none
              else none

/-- Modelled from the spec: the C `config_lookup` (absent from src/):
resolve a dot-separated path from the root. -/
def config_lookup (cfg : ConfigT) (path : String) : Option Nat :=
  match cfg.root with
  | some r => lookupFrom cfg r (pathSegs path)
  | none => none

/-- Modelled from the spec: `config_init` (absent from src/): a fresh
configuration holding an unnamed root group.  The C engine's default
tab width is 2 and default format decimal. -/
def config_init : ConfigT :=
  { settings := [{ name := none, type := CConfigTypeGroup, value := .vNone
                   children := [], parent := none }]
    root := some 0, tab_width := 2, default_format := 0 }

/- ## Go wrapper operations (translated from src/LibConfig.go) -/

/-- Dereference a `LibConfig` handle in the process state. -/
def getTree (st : GoState) (t : Nat) : Option LibConfig := st.trees[t]?

/-- Replace the `LibConfig` at a handle. -/
def setTree (st : GoState) (t : Nat) (c : LibConfig) : GoState :=
  { st with trees := st.trees.set t c }

/-- Go `NewLibConfig` (src/LibConfig.go:69-74): allocates a fresh
`LibConfig`, assigns a **fresh** `sync.RWMutex` to the process-global
`mutex` variable (modelled by bumping the generation and starting the
new mutex unlocked), and runs `config_init`.  Returns the new tree's
handle and the new state. -/
def NewLibConfig (st : GoState) : Nat × GoState :=
  (st.trees.length,
   { st with
       trees := st.trees ++ [{ configFile := "", cConf := config_init }]
       lock := { gen := st.lock.gen + 1, readers := 0, writer := false } })

/-- Go `(*LibConfig).ConfigLookup` (src/LibConfig.go:76-85): wraps the
C `config_lookup` result — possibly NULL — in a `Setting`; no error is
ever returned. -/
def ConfigLookup (st : GoState) (t : Nat) (path : String) : Exec Setting :=
  match getTree st t with
  | none => .crash
  | some c =>
      .done { propPath := path, libConf := t
              cSetting := config_lookup c.cConf path }

/-- Go `(*LibConfig).ReadFile` (src/LibConfig.go:91-102): takes the
global mutex in read mode, records the file name in `configFile`
**before** reading, and — faithfully to the source — returns from the
failure branch without ever calling `RUnlock`, leaving the read hold
leaked; only the success path unlocks. -/
def ReadFile (st : GoState) (t : Nat) (configFile : String) :
    Exec (Option GoErr × GoState) :=
  match getTree st t with
  | none => .crash
  | some c =>
      if st.lock.writer then .blocks
      else
        let st1 := setTree st t { c with configFile := configFile }
        match st.store configFile with
        | some cfg =>
            .done (none,
              setTree st1 t { configFile := configFile, cConf := cfg })
        | none =>
            .done (some ⟨"config_read_file"⟩,
              { st1 with lock := { st1.lock with readers := st1.lock.readers + 1 } })

/-- Go `(*LibConfig).ReadString` (src/LibConfig.go:104-112): parses a
configuration from the given text via `config_read_string`, replacing
the tree's content on success.  Faithfully to the source, it touches
the process-wide mutex in no way — it takes no lock in either mode —
and it leaves `configFile` unchanged. -/
def ReadString (st : GoState) (t : Nat) (configString : String) :
    Exec (Option GoErr × GoState) :=
  match getTree st t with
  | none => .crash
  | some c =>
      match st.parse configString with
      | some cfg => .done (none, setTree st t { c with cConf := cfg })
      | none => .done (some ⟨"config_read_string"⟩, st)

/-- Go `(*LibConfig).WriteFile` (src/LibConfig.go:114-124): takes the
global mutex in write mode, writes the tree to the remembered
`configFile`, and — faithfully to the source — returns from the
failure branch without calling `Unlock`, leaving the write hold
leaked; only the success path unlocks. -/
def WriteFile (st : GoState) (t : Nat) : Exec (Option GoErr × GoState) :=
  match getTree st t with
  | none => .crash
  | some c =>
      if st.lock.writer ∨ st.lock.readers ≠ 0 then .blocks
      else if st.ioOk c.configFile then
        .done (none, { st with written := st.written ++ [c.configFile] })
      else
        .done (some ⟨"config_write_file"⟩,
          { st with lock := { st.lock with writer := true } })

/-- Go `(*LibConfig).WriteToFile` (src/LibConfig.go:126-136): like
`WriteFile` but writes to the path given as an argument; the receiver's
`configFile` field is **not** updated.  The failure branch leaks the
write hold exactly as in `WriteFile`. -/
def WriteToFile (st : GoState) (t : Nat) (configFile : String) :
    Exec (Option GoErr × GoState) :=
  match getTree st t with
  | none => .crash
  | some _ =>
      if st.lock.writer ∨ st.lock.readers ≠ 0 then .blocks
      else if st.ioOk configFile then
        .done (none, { st with written := st.written ++ [configFile] })
      else
        .done (some ⟨"config_write_file"⟩,
          { st with lock := { st.lock with writer := true } })

/-- Go `(*LibConfig).ConfigGetTabWidth` (src/LibConfig.go:213-215):
reads the C `tab_width` field through an `int16` conversion. -/
def ConfigGetTabWidth (c : LibConfig) : Int :=
  int16OfUShort c.cConf.tab_width

/-- Go `(*LibConfig).ConfigSetTabWidth` (src/LibConfig.go:217-219):
stores `tabWidth & 0x0F` into the C `tab_width` field. -/
def ConfigSetTabWidth (c : LibConfig) (tabWidth : Nat) : LibConfig :=
  { c with cConf := { c.cConf with tab_width := tabWidth &&& 0x0F } }

/-- Go `(*Setting).ConfigSettingIsRoot` (src/LibConfig.go:261-265):
`s.cSetting.parent == nil || s.cSetting.parent.name == nil`, crashing
on a nil `cSetting`. -/
def ConfigSettingIsRoot (st : GoState) (s : Setting) : Exec Bool :=
  match getTree st s.libConf with
  | none => .crash
  | some c =>
      match s.cSetting with
      | none => .crash
      | some h =>
          match c.cConf.settings[h]? with
          | none => .crash
          | some cs =>
              match cs.parent with
              | none => .done true
              | some p =>
                  match c.cConf.settings[p]? with
                  | none => .crash
                  | some ps => .done ps.name.isNone

/-- Go `(*Setting).ConfigSettingGetByType` (src/LibConfig.go:290-304):
dispatches on the requested kind and returns the C getter's result as
an `interface{}`; the function has no error result.  The `String`
branch runs `C.GoString` on the C pointer, which yields the empty
string when the C getter returned NULL; the default branch returns Go
`nil` (`none`). -/
def ConfigSettingGetByType (st : GoState) (s : Setting) (valueType : ValueType) :
    Exec (Option GoValue) :=
  match getTree st s.libConf with
  | none => .crash
  | some c =>
      match s.cSetting with
      | none => .crash
      | some h =>
          match c.cConf.settings[h]? with
          | none => .crash
          | some cs =>
              match valueType with
              | CConfigTypeInt => .done (some (.gInt (config_setting_get_int cs)))
              | CConfigTypeInt64 => .done (some (.gInt64 (config_setting_get_int64 cs)))
              | CConfigTypeFloat => .done (some (.gFloat (config_setting_get_float cs)))
              | CConfigTypeBool => .done (some (.gBool (config_setting_get_bool cs == 1)))
              | CConfigTypeString =>
                  .done (some (.gStr (GoString (config_setting_get_string cs))))
              | _ => .done none

/-- Shared tail of the success branches of `ConfigSettingSetByType`
(src/LibConfig.go:310-316 and the parallel cases): after the C setter
succeeded with tree `cfg2`, run `setting.libConf.WriteFile()`; a
failing write is reported as `setting.libConf.error(op)`. -/
def setWriteBack (st : GoState) (t : Nat) (c : LibConfig) (cfg2 : ConfigT)
    (op : String) : Exec (Option GoErr × GoState) :=
  let st1 := setTree st t { c with cConf := cfg2 }
  match WriteFile st1 t with
  | .blocks => .blocks
  | .crash => .crash
  | .done (none, st2) => .done (none, st2)
  | .done (some _, st2) => .done (some ⟨op⟩, st2)

/-- Go `(*Setting).ConfigSettingSetByType` (src/LibConfig.go:306-357):
asserts the dynamic type of `value`, runs the C scalar setter, and on
a C-level success persists via `WriteFile`.  Faithfully to the source,
a C-level failure (kind mismatch) falls through every branch and the
function returns `nil` — no error — with the state untouched; the
default branch likewise returns `nil`. -/
def ConfigSettingSetByType (st : GoState) (s : Setting) (valueType : ValueType)
    (value : GoValue) : Exec (Option GoErr × GoState) :=
  match getTree st s.libConf with
  | none => .crash
  | some c =>
      match s.cSetting with
      | none => .crash
      | some h =>
          match valueType with
          | CConfigTypeInt =>
              match value with
              | .gInt i =>
                  match setScalar c.cConf h CConfigTypeInt (.vInt (wrap32 i)) with
                  | some cfg2 => setWriteBack st s.libConf c cfg2 "config_setting_set_int"
                  | none => .done (none, st)
              | _ => .crash
          | CConfigTypeInt64 =>
              match value with
              | .gInt64 i =>
                  match setScalar c.cConf h CConfigTypeInt64 (.vInt64 (wrap64 i)) with
                  | some cfg2 => setWriteBack st s.libConf c cfg2 "config_setting_set_int64"
                  | none => .done (none, st)
              | _ => .crash
          | CConfigTypeFloat =>
              match value with
              | .gFloat f =>
                  match setScalar c.cConf h CConfigTypeFloat (.vFloat f) with
                  | some cfg2 => setWriteBack st s.libConf c cfg2 "config_setting_set_float"
                  | none => .done (none, st)
              | _ => .crash
          | CConfigTypeBool =>
              match value with
              | .gBool b =>
                  match setScalar c.cConf h CConfigTypeBool (.vBool b) with
                  | some cfg2 => setWriteBack st s.libConf c cfg2 "config_setting_set_bool"
                  | none => .done (none, st)
              | _ => .crash
          | CConfigTypeString =>
              match value with
              | .gStr str =>
                  match setScalar c.cConf h CConfigTypeString (.vStr str) with
                  | some cfg2 => setWriteBack st s.libConf c cfg2 "config_setting_set_string"
                  | none => .done (none, st)
              | _ => .crash
          | _ => .done (none, st)

/-- Shared tail of the branches of `ConfigSettingSetElmByType`
(src/LibConfig.go:447-453 and the parallel cases): store the C
returned pointer — possibly NULL — into the result `Setting`, then
call `WriteFile` **unconditionally**; on a successful write the
function returns `(setting, nil)` even when the element write failed,
and on a failing write it returns `(nil, error(op))`. -/
def setElemWriteBack (st : GoState) (s : Setting)
    (r : Option (ConfigT × Nat)) (c : LibConfig) (op : String) :
    Exec (Option Setting × Option GoErr × GoState) :=
  let stNext :=
    match r with
    | some (cfg2, _) => setTree st s.libConf { c with cConf := cfg2 }
    | none => st
  let setting : Setting :=
    { propPath := s.propPath, libConf := s.libConf
      cSetting := (r.map Prod.snd) }
  match WriteFile stNext s.libConf with
  | .blocks => .blocks
  | .crash => .crash
  | .done (none, st2) => .done (some setting, none, st2)
  | .done (some _, st2) => .done (none, some ⟨op⟩, st2)

/-- Go `(*Setting).ConfigSettingSetElmByType` (src/LibConfig.go:439-490):
runs the C element setter, stores its (possibly NULL) result into a
fresh `Setting`, and then persists via `WriteFile` regardless of
whether the element write succeeded.  The default branch returns
`(nil, error(""))`. -/
def ConfigSettingSetElmByType (st : GoState) (s : Setting) (index : Int)
    (valueType : ValueType) (value : GoValue) :
    Exec (Option Setting × Option GoErr × GoState) :=
  match getTree st s.libConf with
  | none => .crash
  | some c =>
      match s.cSetting with
      | none => .crash
      | some h =>
          match valueType with
          | CConfigTypeInt =>
              match value with
              | .gInt i =>
                  setElemWriteBack st s
                    (setElemScalar c.cConf h (wrap32 index) CConfigTypeInt (.vInt (wrap32 i)))
                    c "config_setting_set_int_elem"
              | _ => .crash
          | CConfigTypeInt64 =>
              match value with
              | .gInt64 i =>
                  setElemWriteBack st s
                    (setElemScalar c.cConf h (wrap32 index) CConfigTypeInt64 (.vInt64 (wrap64 i)))
                    c "config_setting_set_int64_elem"
              | _ => .crash
          | CConfigTypeFloat =>
              match value with
              | .gFloat f =>
                  setElemWriteBack st s
                    (setElemScalar c.cConf h (wrap32 index) CConfigTypeFloat (.vFloat f))
                    c "config_setting_set_float_elem"
              | _ => .crash
          | CConfigTypeBool =>
              match value with
              | .gBool b =>
                  setElemWriteBack st s
                    (setElemScalar c.cConf h (wrap32 index) CConfigTypeBool (.vBool b))
                    c "config_setting_set_bool_elem"
              | _ => .crash
          | CConfigTypeString =>
              match value with
              | .gStr str =>
                  setElemWriteBack st s
                    (setElemScalar c.cConf h (wrap32 index) CConfigTypeString (.vStr str))
                    c "config_setting_set_string_elem"
              | _ => .crash
          | _ => .done (none, some ⟨""⟩, st)

/-- Go `(*Setting).ConfigSettingAdd` (src/LibConfig.go:500-513): runs
the C `config_setting_add`; the very next line reads
`setting.cSetting.name`, which crashes on the nil struct pointer when
the C call returned NULL (duplicate name / bad parent); for a live but
unnamed child (list/array member) `C.GoString` of the NULL name yields
the empty string and the call proceeds; then the initial value is set
via `ConfigSettingSetByType` and the function returns `nil` when that
reported an error, the new `Setting` otherwise.  No branch ever
detaches the new child. -/
def ConfigSettingAdd (st : GoState) (s : Setting) (nm : String)
    (valueType : ValueType) (value : GoValue) :
    Exec (Option Setting × GoState) :=
  match getTree st s.libConf with
  | none => .crash
  | some c =>
      match s.cSetting with
      | none => .crash
      | some h =>
          match config_setting_add c.cConf h nm valueType with
          | none => .crash
          | some (cfg2, ch) =>
              let childName := GoString ((cfg2.settings[ch]?).bind CSetting.name)
              let st1 := setTree st s.libConf { c with cConf := cfg2 }
              let setting : Setting :=
                { propPath := childName, libConf := s.libConf
                  cSetting := some ch }
              match ConfigSettingSetByType st1 setting valueType value with
              | .blocks => .blocks
              | .crash => .crash
              | .done (some _, st2) => .done (none, st2)
              | .done (none, st2) => .done (some setting, st2)

/- ## Observation helpers used by the theorem statements -/

/-- The setting record at handle `h` of tree `t`, if any. -/
def settingAt? (st : GoState) (t h : Nat) : Option CSetting :=
  (getTree st t).bind (fun c => c.cConf.settings[h]?)

/-- The child handles of the setting at `(t, h)` (empty if absent). -/
def childrenAt (st : GoState) (t h : Nat) : List Nat :=
  ((settingAt? st t h).map CSetting.children).getD []

/-- The scalar payload of the setting at `(t, h)`, if any. -/
def valueAt? (st : GoState) (t h : Nat) : Option CValue :=
  (settingAt? st t h).map CSetting.value

/-- Result `ConfigSettingGetByType` produces on a kind mismatch, kind
by kind: the numeric and boolean getters return the C default (zero /
false), and the string branch returns the empty string (`C.GoString`
of the NULL the C getter returns). -/
def mismatchGetResult : ValueType → Exec (Option GoValue)
  | CConfigTypeInt => .done (some (.gInt 0))
  | CConfigTypeInt64 => .done (some (.gInt64 0))
  | CConfigTypeFloat => .done (some (.gFloat ⟨0⟩))
  | CConfigTypeBool => .done (some (.gBool false))
  | CConfigTypeString => .done (some (.gStr ""))
  | _ => .done none

/- ## Concrete demonstration states -/

/-- The root group of the demonstration tree (no name, no parent). -/
def demoRoot : CSetting :=
  { name := none, type := CConfigTypeGroup, value := .vNone
    children := [1, 2, 3], parent := none }

/-- A string setting `title = "x"` under the root. -/
def demoTitle : CSetting :=
  { name := some "title", type := CConfigTypeString, value := .vStr "x"
    children := [], parent := some 0 }

/-- An int setting `port = 8080` under the root. -/
def demoPort : CSetting :=
  { name := some "port", type := CConfigTypeInt, value := .vInt 8080
    children := [], parent := some 0 }

/-- A list setting `users = ("alice")` under the root. -/
def demoUsers : CSetting :=
  { name := some "users", type := CConfigTypeList, value := .vNone
    children := [4], parent := some 0 }

/-- The single, unnamed list element `"alice"`. -/
def demoAlice : CSetting :=
  { name := none, type := CConfigTypeString, value := .vStr "alice"
    children := [], parent := some 3 }

/-- The demonstration configuration tree. -/
def demoCfg : ConfigT :=
  { settings := [demoRoot, demoTitle, demoPort, demoUsers, demoAlice]
    root := some 0, tab_width := 2, default_format := 0 }

/-- A `LibConfig` whose backing file is `test.cfg`. -/
def demoConf : LibConfig := { configFile := "test.cfg", cConf := demoCfg }

/-- Process state with one tree, a free lock, and a file system that
accepts every write. -/
def demoStOk : GoState :=
  { lock := { gen := 0, readers := 0, writer := false }
    trees := [demoConf], written := []
    ioOk := fun _ => true, store := fun _ => none, parse := fun _ => none }

/-- Process state with one tree, a free lock, and a file system on
which every write and every read fails. -/
def demoStBad : GoState :=
  { lock := { gen := 0, readers := 0, writer := false }
    trees := [demoConf], written := []
    ioOk := fun _ => false, store := fun _ => none, parse := fun _ => none }

/- ## Claim theorems -/

/-- C9 (confirmed): after `ConfigSetTabWidth w` the stored tab width
equals `w` reduced to its low 4 bits (`w % 16`), hence always lies in
0–15, and a subsequent `ConfigGetTabWidth` returns exactly that
value. -/
theorem tab_width_low_four_bits (c : LibConfig) (w : Nat) :
    (ConfigSetTabWidth c w).cConf.tab_width = w % 16
    ∧ ConfigGetTabWidth (ConfigSetTabWidth c w) = ((w % 16 : Nat) : Int) := by
  have h15 : w &&& 0x0F = w % 16 := by
    have h := Nat.and_pow_two_sub_one_eq_mod w 4
    norm_num at h
    exact h
  have hlt : w % 16 < 32768 :=
    lt_of_lt_of_le (Nat.mod_lt _ (by norm_num)) (by norm_num)
  refine ⟨by simp [ConfigSetTabWidth, h15], ?_⟩
  simp only [ConfigGetTabWidth, ConfigSetTabWidth, int16OfUShort, h15]
  norm_num [hlt]

/-- C7 (code_bug): the setting at handle 1 has a parent (the root,
handle 0), yet `ConfigSettingIsRoot` evaluates to `true` on it: the
source also accepts `parent.name == nil` and the root's name is nil,
so every direct child of the root is reported as root.  The claim says
`is_root` is true iff the node has no parent, hence false here. -/
theorem isRoot_true_for_child_of_root :
    ConfigSettingIsRoot demoStOk { propPath := "title", libConf := 0, cSetting := some 1 }
      = .done true
    ∧ (settingAt? demoStOk 0 1).map CSetting.parent = some (some 0) :=
  ⟨rfl, rfl⟩

/-- C3 (counterexample): reading the string setting `title` with the
mismatched kind Int returns the value `0` — the wrapper's read
function has no error result at all — whereas the claim requires the
read to fail with TypeMismatch rather than return a value. -/
theorem get_type_mismatch_returns_value_cex :
    ConfigSettingGetByType demoStOk { propPath := "title", libConf := 0, cSetting := some 1 }
      CConfigTypeInt = .done (some (.gInt 0)) :=
  rfl

/-- C3 (amended, proved): a scalar read with a kind differing from the
node's kind does not produce a TypeMismatch error — the function has
no error result; it returns the requested kind's default value
(0, 0, 0.0, false, or, for String, the empty string that `C.GoString`
makes of the C getter's NULL). -/
theorem get_type_mismatch_returns_default (st : GoState) (s : Setting) (t h : Nat)
    (c : LibConfig) (cs : CSetting) (vt : ValueType)
    (hlc : s.libConf = t) (ht : getTree st t = some c)
    (hcs : s.cSetting = some h) (hs : c.cConf.settings[h]? = some cs)
    (hscalar : isScalarKind vt = true) (hne : cs.type ≠ vt) :
    ConfigSettingGetByType st s vt = mismatchGetResult vt := by
  subst hlc
  cases vt <;> simp [isScalarKind] at hscalar <;>
    simp [ConfigSettingGetByType, ht, hcs, hs, mismatchGetResult, GoString,
      config_setting_get_int, config_setting_get_int64, config_setting_get_float,
      config_setting_get_bool, config_setting_get_string, hne]

/-- C3 (witness): the amended theorem applied to the `title` string
setting read with kind Int. -/
theorem get_type_mismatch_returns_default_witness :
    (getTree demoStOk 0 = some demoConf
      ∧ demoConf.cConf.settings[1]? = some demoTitle
      ∧ isScalarKind CConfigTypeInt = true
      ∧ demoTitle.type ≠ CConfigTypeInt)
    ∧ ConfigSettingGetByType demoStOk { propPath := "title", libConf := 0, cSetting := some 1 }
        CConfigTypeInt = mismatchGetResult CConfigTypeInt :=
  ⟨⟨rfl, rfl, rfl, by decide⟩,
    get_type_mismatch_returns_default demoStOk
      { propPath := "title", libConf := 0, cSetting := some 1 } 0 1 demoConf demoTitle
      CConfigTypeInt rfl rfl rfl rfl rfl (by decide)⟩

/-- C1 (code_bug evaluation): a scalar write with a kind differing
from the node's kind makes the C setter fail, which leaves the value
(indeed the whole process state) unchanged — but the wrapper then
falls through every branch and returns `nil`, reporting success
instead of the TypeMismatch error the claim requires. -/
theorem set_type_mismatch_reports_success (st : GoState) (s : Setting) (t h : Nat)
    (c : LibConfig) (cs : CSetting) (vt : ValueType) (v : GoValue)
    (hlc : s.libConf = t) (ht : getTree st t = some c)
    (hcs : s.cSetting = some h) (hs : c.cConf.settings[h]? = some cs)
    (hscalar : isScalarKind vt = true) (hne : cs.type ≠ vt)
    (hv : valueMatches vt v = true) :
    ConfigSettingSetByType st s vt v = .done (none, st) := by
  subst hlc
  cases vt <;> simp [isScalarKind] at hscalar <;>
    cases v <;> simp [valueMatches] at hv <;>
      simp [ConfigSettingSetByType, ht, hcs, setScalar, hs, hne]

/-- C1 (witness): the mismatching write `set(title, Int, 7)` on the
string setting `title` returns `nil` and leaves the state unchanged. -/
theorem set_type_mismatch_reports_success_witness :
    (getTree demoStOk 0 = some demoConf
      ∧ demoConf.cConf.settings[1]? = some demoTitle
      ∧ isScalarKind CConfigTypeInt = true
      ∧ demoTitle.type ≠ CConfigTypeInt
      ∧ valueMatches CConfigTypeInt (.gInt 7) = true)
    ∧ ConfigSettingSetByType demoStOk { propPath := "title", libConf := 0, cSetting := some 1 }
        CConfigTypeInt (.gInt 7) = .done (none, demoStOk) :=
  ⟨⟨rfl, rfl, rfl, by decide, rfl⟩,
    set_type_mismatch_reports_success demoStOk
      { propPath := "title", libConf := 0, cSetting := some 1 } 0 1 demoConf demoTitle
      CConfigTypeInt (.gInt 7) rfl rfl rfl rfl rfl (by decide) rfl⟩

/-- C2 (code_bug evaluation): an element write at an index outside
`[0, length)` makes the C element setter fail and leave the tree
unchanged, but the wrapper still calls `WriteFile` — persisting the
tree — and, the write having succeeded, returns a `nil` error together
with a `Setting` whose inner handle is NULL, instead of the claimed
IndexOutOfRange failure without a persist. -/
theorem set_elem_out_of_range_persists (st : GoState) (s : Setting) (t h : Nat)
    (c : LibConfig) (p : CSetting) (idx : Int) (vt : ValueType) (v : GoValue)
    (hlc : s.libConf = t) (ht : getTree st t = some c)
    (hcs : s.cSetting = some h) (hs : c.cConf.settings[h]? = some p)
    (hcont : p.type = CConfigTypeArray ∨ p.type = CConfigTypeList)
    (hrange : ¬ (0 ≤ wrap32 idx ∧ wrap32 idx < (p.children.length : Int)))
    (hscalar : isScalarKind vt = true) (hv : valueMatches vt v = true)
    (hwr : st.lock.writer = false) (hrd : st.lock.readers = 0)
    (hio : st.ioOk c.configFile = true) :
    ConfigSettingSetElmByType st s idx vt v
      = .done (some { propPath := s.propPath, libConf := t, cSetting := none },
          none, { st with written := st.written ++ [c.configFile] }) := by
  subst hlc
  have helem : setElemScalar c.cConf h (wrap32 idx) vt
      (match vt, v with
       | CConfigTypeInt, .gInt i => CValue.vInt (wrap32 i)
       | CConfigTypeInt64, .gInt64 i => CValue.vInt64 (wrap64 i)
       | CConfigTypeFloat, .gFloat f => CValue.vFloat f
       | CConfigTypeBool, .gBool b => CValue.vBool b
       | CConfigTypeString, .gStr str => CValue.vStr str
       | _, _ => CValue.vNone) = none := by
    rcases hcont with hty | hty <;>
      simp [setElemScalar, hs, hty, hrange]
  cases vt <;> simp [isScalarKind] at hscalar <;>
    cases v <;> simp [valueMatches] at hv <;>
      simp_all [ConfigSettingSetElmByType, setElemWriteBack, WriteFile, ht, hcs,
        hwr, hrd, hio]

/-- C2 (witness): writing Int 7 at index 5 of the one-element list
`users` persists the unchanged tree and reports success. -/
theorem set_elem_out_of_range_persists_witness :
    (getTree demoStOk 0 = some demoConf
      ∧ demoConf.cConf.settings[3]? = some demoUsers
      ∧ (demoUsers.type = CConfigTypeArray ∨ demoUsers.type = CConfigTypeList)
      ∧ ¬ (0 ≤ wrap32 5 ∧ wrap32 5 < (demoUsers.children.length : Int))
      ∧ isScalarKind CConfigTypeInt = true
      ∧ valueMatches CConfigTypeInt (.gInt 7) = true
      ∧ demoStOk.lock.writer = false
      ∧ demoStOk.lock.readers = 0
      ∧ demoStOk.ioOk demoConf.configFile = true)
    ∧ ConfigSettingSetElmByType demoStOk { propPath := "users", libConf := 0, cSetting := some 3 }
        5 CConfigTypeInt (.gInt 7)
      = .done (some { propPath := "users", libConf := 0, cSetting := none },
          none, { demoStOk with written := demoStOk.written ++ [demoConf.configFile] }) :=
  ⟨⟨rfl, rfl, Or.inr rfl, by decide, rfl, rfl, rfl, rfl, rfl⟩,
    set_elem_out_of_range_persists demoStOk
      { propPath := "users", libConf := 0, cSetting := some 3 } 0 3 demoConf demoUsers
      5 CConfigTypeInt (.gInt 7) rfl rfl rfl rfl (Or.inr rfl) (by decide) rfl rfl rfl rfl rfl⟩

/-- C5 (counterexample): `WriteToFile "other.cfg"` on a tree whose
backing path is `test.cfg` leaves the backing path at `test.cfg`, and
the subsequent argumentless persist writes to `test.cfg`, not to
`other.cfg` — refuting the claim that `persist_as` sets/overrides the
backing path for later persists. -/
theorem writeToFile_keeps_old_backing_path_cex :
    ((WriteToFile demoStOk 0 "other.cfg").res?.map
        (fun pr => (getTree pr.2 0).map LibConfig.configFile)) = some (some "test.cfg")
    ∧ ((WriteToFile demoStOk 0 "other.cfg").res?.bind
        (fun pr => (WriteFile pr.2 0).res?.map (fun pr2 => pr2.2.written)))
      = some ["other.cfg", "test.cfg"] :=
  ⟨rfl, rfl⟩

/-- C5 (amended, proved): `WriteToFile path` serializes the tree to the
given path but leaves `configFile` — the backing path — unchanged, so
a subsequent argumentless `WriteFile` persists to the *previous*
backing path rather than to `path`. -/
theorem writeToFile_leaves_backing_path (st : GoState) (t : Nat) (c : LibConfig)
    (pth : String) (ht : getTree st t = some c)
    (hwr : st.lock.writer = false) (hrd : st.lock.readers = 0)
    (hio1 : st.ioOk pth = true) (hio2 : st.ioOk c.configFile = true) :
    WriteToFile st t pth = .done (none, { st with written := st.written ++ [pth] })
    ∧ WriteFile { st with written := st.written ++ [pth] } t
      = .done (none, { st with written := (st.written ++ [pth]) ++ [c.configFile] }) := by
  have ht' : st.trees[t]? = some c := ht
  constructor
  · simp [WriteToFile, getTree, ht', hwr, hrd, hio1]
  · simp [WriteFile, getTree, ht', hwr, hrd, hio2]

/-- C5 (witness): the amended theorem at the demonstration state,
persisting-as to `other.cfg` and then persisting. -/
theorem writeToFile_leaves_backing_path_witness :
    (getTree demoStOk 0 = some demoConf
      ∧ demoStOk.lock.writer = false ∧ demoStOk.lock.readers = 0
      ∧ demoStOk.ioOk "other.cfg" = true ∧ demoStOk.ioOk demoConf.configFile = true)
    ∧ (WriteToFile demoStOk 0 "other.cfg"
        = .done (none, { demoStOk with written := demoStOk.written ++ ["other.cfg"] })
      ∧ WriteFile { demoStOk with written := demoStOk.written ++ ["other.cfg"] } 0
        = .done (none, { demoStOk with
            written := (demoStOk.written ++ ["other.cfg"]) ++ [demoConf.configFile] })) :=
  ⟨⟨rfl, rfl, rfl, rfl, rfl⟩,
    writeToFile_leaves_backing_path demoStOk 0 demoConf "other.cfg" rfl rfl rfl rfl rfl⟩

/-- Resolution distributes over concatenation of segment lists. -/
theorem lookupFrom_append (cfg : ConfigT) (l1 l2 : List Seg) (h : Nat) :
    lookupFrom cfg h (l1 ++ l2)
      = (lookupFrom cfg h l1).bind (fun m => lookupFrom cfg m l2) := by
  induction l1 generalizing h with
  | nil => simp [lookupFrom]
  | cons seg rest ih =>
      cases hsh : cfg.settings[h]? with
      | none => simp [lookupFrom, hsh]
      | some s =>
          cases seg with
          | nameSeg n =>
              cases hcn : childNamed cfg s.children n with
              | none => simp [lookupFrom, hsh, hcn]
              | some cc =>
                  by_cases hg : s.type = CConfigTypeGroup <;>
                    simp [lookupFrom, hsh, hcn, hg, ih]
          | idxSeg i =>
              cases hci : s.children[i]? with
              | none => simp [lookupFrom, hsh, hci]
              | some cc =>
                  by_cases hc : isContainerKind s.type <;>
                    simp [lookupFrom, hsh, hci, hc, ih]

/-- C6 (confirmed): whenever a path fails to resolve — a missing name
in a group, an index at or past the container's length, or an index
applied to a scalar — `ConfigLookup` returns a `Setting` whose handle
is the single NULL failure value `none`: no distinct index-error kind,
no error return, no other outcome. -/
theorem lookup_single_failure_surface (st : GoState) (t : Nat) (c : LibConfig)
    (path : String) (r hnode : Nat) (snode : CSetting)
    (pre : List Seg) (seg : Seg) (rest : List Seg)
    (ht : getTree st t = some c) (hr : c.cConf.root = some r)
    (hsplit : pathSegs path = pre ++ seg :: rest)
    (hpre : lookupFrom c.cConf r pre = some hnode)
    (hsn : c.cConf.settings[hnode]? = some snode)
    (hmode :
      (∃ n, seg = Seg.nameSeg n ∧ snode.type = CConfigTypeGroup
        ∧ childNamed c.cConf snode.children n = none)
      ∨ (∃ i, seg = Seg.idxSeg i ∧ isContainerKind snode.type = true
        ∧ snode.children.length ≤ i)
      ∨ (∃ i, seg = Seg.idxSeg i ∧ isScalarKind snode.type = true)) :
    ConfigLookup st t path
      = .done { propPath := path, libConf := t, cSetting := none } := by
  have hfail : lookupFrom c.cConf hnode (seg :: rest) = none := by
    rcases hmode with ⟨n, hseg, hg, hcn⟩ | ⟨i, hseg, hcont, hlen⟩ | ⟨i, hseg, hsc⟩
    · subst hseg
      simp [lookupFrom, hsn, hg, hcn]
    · subst hseg
      have hnone : snode.children[i]? = none := List.getElem?_eq_none hlen
      simp [lookupFrom, hsn, hcont, hnone]
    · subst hseg
      have hnc : isContainerKind snode.type = false := by
        cases hty : snode.type <;> simp_all [isScalarKind, isContainerKind]
      simp [lookupFrom, hsn, hnc]
  simp [ConfigLookup, ht, config_lookup, hr, hsplit, lookupFrom_append, hpre, hfail]

/-- C6 (witness): the theorem applied to the path `users.[5]` — index 5
is out of range of the one-element list `users`, and the lookup
returns the NULL-handled `Setting`. -/
theorem lookup_single_failure_surface_witness :
    (getTree demoStOk 0 = some demoConf
      ∧ demoConf.cConf.root = some 0
      ∧ pathSegs "users.[5]" = [Seg.nameSeg "users"] ++ Seg.idxSeg 5 :: []
      ∧ lookupFrom demoConf.cConf 0 [Seg.nameSeg "users"] = some 3
      ∧ demoConf.cConf.settings[3]? = some demoUsers
      ∧ isContainerKind demoUsers.type = true
      ∧ demoUsers.children.length ≤ 5)
    ∧ ConfigLookup demoStOk 0 "users.[5]"
      = .done { propPath := "users.[5]", libConf := 0, cSetting := none } :=
  ⟨⟨rfl, rfl, by decide, by decide, rfl, rfl, by decide⟩,
    lookup_single_failure_surface demoStOk 0 demoConf "users.[5]" 0 3 demoUsers
      [Seg.nameSeg "users"] (Seg.idxSeg 5) [] rfl rfl (by decide) (by decide) rfl
      (Or.inr (Or.inl ⟨5, rfl, rfl, by decide⟩))⟩

/-- The C payload `ConfigSettingSetByType` stores for a given requested
kind and matching Go value (after the C casts). -/
def goPayload : ValueType → GoValue → CValue
  | CConfigTypeInt, .gInt i => .vInt (wrap32 i)
  | CConfigTypeInt64, .gInt64 i => .vInt64 (wrap64 i)
  | CConfigTypeFloat, .gFloat f => .vFloat f
  | CConfigTypeBool, .gBool b => .vBool b
  | CConfigTypeString, .gStr str => .vStr str
  | _, _ => .vNone

/-- The operation name `ConfigSettingSetByType` reports when the
write-back fails, per requested kind. -/
def setOpName : ValueType → String
  | CConfigTypeInt => "config_setting_set_int"
  | CConfigTypeInt64 => "config_setting_set_int64"
  | CConfigTypeFloat => "config_setting_set_float"
  | CConfigTypeBool => "config_setting_set_bool"
  | CConfigTypeString => "config_setting_set_string"
  | _ => ""

/-- On a kind-matching scalar write whose persist fails, the wrapper
stores the value in memory, leaves the write-lock held (the `WriteFile`
bug), and reports the error: the in-memory mutation is kept. -/
theorem setByType_success_write_fails (st : GoState) (s : Setting) (t h : Nat)
    (c : LibConfig) (cs : CSetting) (vt : ValueType) (v : GoValue)
    (hlc : s.libConf = t) (ht : getTree st t = some c) (hcs : s.cSetting = some h)
    (hs : c.cConf.settings[h]? = some cs) (hty : cs.type = vt)
    (hscalar : isScalarKind vt = true) (hv : valueMatches vt v = true)
    (htl : t < st.trees.length)
    (hwr : st.lock.writer = false) (hrd : st.lock.readers = 0)
    (hio : st.ioOk c.configFile = false) :
    ConfigSettingSetByType st s vt v
      = .done (some ⟨setOpName vt⟩,
          { (setTree st t { c with cConf := { c.cConf with
              settings := c.cConf.settings.set h { cs with value := goPayload vt v } } })
            with lock := { st.lock with writer := true } }) := by
  subst hlc
  have ht' : st.trees[s.libConf]? = some c := ht
  cases vt <;> simp [isScalarKind] at hscalar <;>
    cases v <;> simp [valueMatches] at hv <;>
      simp [ConfigSettingSetByType, getTree, setTree, ht', hcs, setScalar, hs, hty,
        setWriteBack, setOpName, goPayload, WriteFile,
        List.getElem?_set_self htl, hwr, hrd, hio]

/-- C4 (counterexample): on a state whose backing-store writes fail,
`add(root, "newkey", Int, 5)` reports failure (returns `nil`), but the
newly created child remains attached to the root (child handle 5 is
appended to the root's children and carries the name `newkey`),
refuting the all-or-nothing claim. -/
theorem add_reports_failure_but_child_attached_cex :
    ((ConfigSettingAdd demoStBad { propPath := "", libConf := 0, cSetting := some 0 }
        "newkey" CConfigTypeInt (.gInt 5)).res?.map Prod.fst = some none)
    ∧ ((ConfigSettingAdd demoStBad { propPath := "", libConf := 0, cSetting := some 0 }
        "newkey" CConfigTypeInt (.gInt 5)).res?.map (fun pr => childrenAt pr.2 0 0)
      = some [1, 2, 3, 5])
    ∧ ((ConfigSettingAdd demoStBad { propPath := "", libConf := 0, cSetting := some 0 }
        "newkey" CConfigTypeInt (.gInt 5)).res?.map
          (fun pr => (settingAt? pr.2 0 5).map CSetting.name)
      = some (some (some "newkey"))) :=
  ⟨rfl, rfl, rfl⟩

/-- C4 (amended, proved): when the initial `set` on the newly created
child fails (here: its persist write-back fails), `add` does report
failure to the caller — it returns `nil` — but the newly created child
*is* left attached to the parent: the parent's child list has the new
handle appended and the child (bearing the requested name) is present
in the tree. -/
theorem add_set_failure_leaves_child_attached (st : GoState) (s : Setting) (t h : Nat)
    (c : LibConfig) (p : CSetting) (nm : String) (vt : ValueType) (v : GoValue)
    (hlc : s.libConf = t) (ht : getTree st t = some c)
    (hcs : s.cSetting = some h) (hs : c.cConf.settings[h]? = some p)
    (hgroup : p.type = CConfigTypeGroup)
    (hfresh : childNamed c.cConf p.children nm = none)
    (hscalar : isScalarKind vt = true) (hv : valueMatches vt v = true)
    (hwr : st.lock.writer = false) (hrd : st.lock.readers = 0)
    (hio : st.ioOk c.configFile = false) :
    ((ConfigSettingAdd st s nm vt v).res?.map Prod.fst = some none)
    ∧ ((ConfigSettingAdd st s nm vt v).res?.map
        (fun pr => childrenAt pr.2 t h) = some (p.children ++ [c.cConf.settings.length]))
    ∧ ((ConfigSettingAdd st s nm vt v).res?.map
        (fun pr => (settingAt? pr.2 t c.cConf.settings.length).map CSetting.name)
      = some (some (some nm))) := by
  have htl : t < st.trees.length := by
    by_contra hcon
    push_neg at hcon
    have hnone : st.trees[t]? = none := List.getElem?_eq_none hcon
    have ht' : st.trees[t]? = some c := ht
    rw [hnone] at ht'
    exact Option.noConfusion ht'
  have hhl : h < c.cConf.settings.length := by
    by_contra hcon
    push_neg at hcon
    have hnone : c.cConf.settings[h]? = none := List.getElem?_eq_none hcon
    rw [hnone] at hs
    exact Option.noConfusion hs
  set N := c.cConf.settings.length with hN
  set pUpd : CSetting := { p with children := p.children ++ [N] } with hpUpd
  set child : CSetting :=
    { name := some nm, type := vt, value := defaultValue vt
      children := [], parent := some h } with hchild
  set cfg2 : ConfigT :=
    { c.cConf with settings := (c.cConf.settings.set h pUpd) ++ [child] } with hcfg2
  have hadd : config_setting_add c.cConf h nm vt = some (cfg2, N) := by
    simp [config_setting_add, hs, hgroup, hfresh, appendChild, hcfg2, hpUpd, hchild, hN]
  have hchget : cfg2.settings[N]? = some child := by
    have hlen : (c.cConf.settings.set h pUpd).length = N := by
      simp [hN]
    have hcat := List.getElem?_concat_length (c.cConf.settings.set h pUpd) child
    rw [hlen] at hcat
    simp [hcfg2, hcat]
  set c2 : LibConfig := { c with cConf := cfg2 } with hc2
  have ht2 : getTree (setTree st t c2) t = some c2 := by
    simp [getTree, setTree, List.getElem?_set_self htl]
  have hrun : ConfigSettingSetByType (setTree st t c2)
      { propPath := nm, libConf := t, cSetting := some N } vt v
      = .done (some ⟨setOpName vt⟩,
          { (setTree (setTree st t c2) t { c2 with cConf := { cfg2 with
              settings := cfg2.settings.set N { child with value := goPayload vt v } } })
            with lock := { st.lock with writer := true } }) := by
    exact setByType_success_write_fails (setTree st t c2)
      { propPath := nm, libConf := t, cSetting := some N } t N c2 child vt v
      rfl ht2 rfl hchget rfl hscalar hv (by simp [setTree, htl]) hwr hrd hio
  have hmain : ConfigSettingAdd st s nm vt v
      = .done (none,
          { (setTree (setTree st t c2) t { c2 with cConf := { cfg2 with
              settings := cfg2.settings.set N { child with value := goPayload vt v } } })
            with lock := { st.lock with writer := true } }) := by
    simp [ConfigSettingAdd, hlc, ht, hcs, hadd, hchget, hchild, GoString, hc2, hrun]
  rw [hmain]
  have hNne : N ≠ h := Nat.ne_of_gt hhl
  have hsetlen : h < (c.cConf.settings.set h pUpd).length := by
    simpa using hhl
  have hchlt : N < cfg2.settings.length := by
    simp [hcfg2, hN]
  refine ⟨rfl, ?_, ?_⟩
  · simp [Exec.res?, childrenAt, settingAt?, getTree, setTree, List.set_set,
      List.getElem?_set_self htl, List.getElem?_set_ne hNne,
      hcfg2, List.getElem?_append_left hsetlen, List.getElem?_set_self hhl,
      hpUpd, hN]
  · simp [Exec.res?, settingAt?, getTree, setTree, List.set_set,
      List.getElem?_set_self htl, List.getElem?_set_self hchlt, hchild]

/-- C4 (witness): the amended theorem at the demonstration state with
failing writes, adding `newkey = 5` under the root group. -/
theorem add_set_failure_leaves_child_attached_witness :
    (getTree demoStBad 0 = some demoConf
      ∧ demoConf.cConf.settings[0]? = some demoRoot
      ∧ demoRoot.type = CConfigTypeGroup
      ∧ childNamed demoConf.cConf demoRoot.children "newkey" = none
      ∧ isScalarKind CConfigTypeInt = true
      ∧ valueMatches CConfigTypeInt (.gInt 5) = true
      ∧ demoStBad.lock.writer = false
      ∧ demoStBad.lock.readers = 0
      ∧ demoStBad.ioOk demoConf.configFile = false)
    ∧ (((ConfigSettingAdd demoStBad { propPath := "", libConf := 0, cSetting := some 0 }
          "newkey" CConfigTypeInt (.gInt 5)).res?.map Prod.fst = some none)
      ∧ ((ConfigSettingAdd demoStBad { propPath := "", libConf := 0, cSetting := some 0 }
          "newkey" CConfigTypeInt (.gInt 5)).res?.map
            (fun pr => childrenAt pr.2 0 0)
        = some (demoRoot.children ++ [demoConf.cConf.settings.length]))
      ∧ ((ConfigSettingAdd demoStBad { propPath := "", libConf := 0, cSetting := some 0 }
          "newkey" CConfigTypeInt (.gInt 5)).res?.map
            (fun pr => (settingAt? pr.2 0 demoConf.cConf.settings.length).map CSetting.name)
        = some (some (some "newkey")))) :=
  ⟨⟨rfl, rfl, rfl, by decide, rfl, rfl, rfl, rfl, rfl⟩,
    add_set_failure_leaves_child_attached demoStBad
      { propPath := "", libConf := 0, cSetting := some 0 } 0 0 demoConf demoRoot
      "newkey" CConfigTypeInt (.gInt 5) rfl rfl rfl rfl rfl (by decide) rfl rfl
      rfl rfl rfl⟩

/-- Process state identical to `demoStOk` except that the current
global mutex is held in write mode (as left behind, e.g., by a failed
persist). -/
def demoStHeld : GoState :=
  { lock := { gen := 0, readers := 0, writer := true }
    trees := [demoConf], written := []
    ioOk := fun _ => true, store := fun _ => none, parse := fun _ => none }

/-- C8 (counterexample): with the current process-wide mutex
write-held, a persist on the existing tree blocks; `NewLibConfig`
then replaces the global mutex with a fresh, unlocked one (the lock
generation changes), after which the very same persist on the very
same pre-existing tree proceeds — so creating a new Tree does change
and replace the lock existing Trees synchronize on, refuting the
claim. -/
theorem newLibConfig_replaces_lock_cex :
    WriteFile demoStHeld 0 = .blocks
    ∧ (NewLibConfig demoStHeld).2.lock.gen ≠ demoStHeld.lock.gen
    ∧ ((WriteFile (NewLibConfig demoStHeld).2 0).res?.map Prod.fst) = some none :=
  ⟨rfl, by decide, rfl⟩

/-- C8 (amended, proved): persists and loads-from-store synchronize on
the single current process-wide lock, whichever tree they act on — a
persist blocks whenever that lock is write-held or read-held, a
load-from-store blocks whenever it is write-held and proceeds in
shared mode otherwise — but a load-from-text (`ReadString`) takes no
lock at all (it completes and leaves the lock untouched even while
the lock is held), and creating a new Tree *replaces* the
process-wide lock with a fresh, unlocked one (a new generation), so
only operations issued since the latest Tree creation serialize with
one another. -/
theorem persistence_guard_process_wide_but_replaced (st : GoState) (t : Nat)
    (c : LibConfig) (p q : String) (ht : getTree st t = some c) :
    (st.lock.writer = true → WriteFile st t = .blocks ∧ ReadFile st t p = .blocks)
    ∧ (st.lock.readers ≠ 0 → WriteFile st t = .blocks)
    ∧ (st.lock.writer = false → (ReadFile st t p).isDone = true)
    ∧ (ReadString st t q).isDone = true
    ∧ ((ReadString st t q).res?.map (fun pr => pr.2.lock)) = some st.lock
    ∧ (NewLibConfig st).2.lock.gen = st.lock.gen + 1
    ∧ (NewLibConfig st).2.lock.readers = 0
    ∧ (NewLibConfig st).2.lock.writer = false := by
  refine ⟨fun hw => ⟨?_, ?_⟩, fun hr => ?_, fun hw => ?_, ?_, ?_, rfl, rfl, rfl⟩
  · simp [WriteFile, ht, hw]
  · simp [ReadFile, ht, hw]
  · simp [WriteFile, ht, hr]
  · cases hst : st.store p <;> simp [ReadFile, ht, hw, Exec.isDone, hst]
  · cases hpq : st.parse q <;> simp [ReadString, ht, Exec.isDone, hpq]
  · cases hpq : st.parse q <;> simp [ReadString, ht, Exec.res?, setTree, hpq]

/-- C8 (witness): the amended theorem at the demonstration state. -/
theorem persistence_guard_process_wide_but_replaced_witness :
    (getTree demoStOk 0 = some demoConf)
    ∧ ((demoStOk.lock.writer = true →
          WriteFile demoStOk 0 = .blocks ∧ ReadFile demoStOk 0 "test.cfg" = .blocks)
      ∧ (demoStOk.lock.readers ≠ 0 → WriteFile demoStOk 0 = .blocks)
      ∧ (demoStOk.lock.writer = false → (ReadFile demoStOk 0 "test.cfg").isDone = true)
      ∧ (ReadString demoStOk 0 "a = 1;").isDone = true
      ∧ ((ReadString demoStOk 0 "a = 1;").res?.map (fun pr => pr.2.lock))
          = some demoStOk.lock
      ∧ (NewLibConfig demoStOk).2.lock.gen = demoStOk.lock.gen + 1
      ∧ (NewLibConfig demoStOk).2.lock.readers = 0
      ∧ (NewLibConfig demoStOk).2.lock.writer = false) :=
  ⟨rfl, persistence_guard_process_wide_but_replaced demoStOk 0 demoConf "test.cfg"
    "a = 1;" rfl⟩

/-- C10 (code_bug evaluation): a failing persist returns with the
exclusive hold still in place — the error branch of `WriteFile` never
unlocks — after which every further persist blocks forever; likewise a
failing load returns with its shared hold leaked, after which every
further persist blocks forever.  The claim that the guard is always
released by the time a load/persist returns is false on the error
paths. -/
theorem guard_leaked_on_error_paths (st : GoState) (t : Nat) (c : LibConfig)
    (pth : String) (ht : getTree st t = some c)
    (hwr : st.lock.writer = false) (hrd : st.lock.readers = 0)
    (hio : st.ioOk c.configFile = false) (hstore : st.store pth = none) :
    (WriteFile st t = .done (some ⟨"config_write_file"⟩,
        { st with lock := { st.lock with writer := true } }))
    ∧ WriteFile { st with lock := { st.lock with writer := true } } t = .blocks
    ∧ (ReadFile st t pth = .done (some ⟨"config_read_file"⟩,
        { (setTree st t { c with configFile := pth }) with
            lock := { st.lock with readers := st.lock.readers + 1 } }))
    ∧ WriteFile { (setTree st t { c with configFile := pth }) with
          lock := { st.lock with readers := st.lock.readers + 1 } } t = .blocks := by
  have ht' : st.trees[t]? = some c := ht
  have htl : t < st.trees.length := by
    by_contra hcon
    push_neg at hcon
    have hnone : st.trees[t]? = none := List.getElem?_eq_none hcon
    rw [hnone] at ht'
    exact Option.noConfusion ht'
  refine ⟨?_, ?_, ?_, ?_⟩
  · simp [WriteFile, getTree, ht', hwr, hrd, hio]
  · simp [WriteFile, getTree, ht']
  · simp [ReadFile, getTree, setTree, ht', hwr, hstore]
  · simp [WriteFile, getTree, setTree, List.getElem?_set_self htl]

/-- C10 (witness): on the failing file system, the persist error leaks
the write hold and the load error leaks a read hold, each blocking all
later persists. -/
theorem guard_leaked_on_error_paths_witness :
    (getTree demoStBad 0 = some demoConf
      ∧ demoStBad.lock.writer = false ∧ demoStBad.lock.readers = 0
      ∧ demoStBad.ioOk demoConf.configFile = false
      ∧ demoStBad.store "test.cfg" = none)
    ∧ ((WriteFile demoStBad 0 = .done (some ⟨"config_write_file"⟩,
          { demoStBad with lock := { demoStBad.lock with writer := true } }))
      ∧ WriteFile { demoStBad with lock := { demoStBad.lock with writer := true } } 0
          = .blocks
      ∧ (ReadFile demoStBad 0 "test.cfg" = .done (some ⟨"config_read_file"⟩,
          { (setTree demoStBad 0 { demoConf with configFile := "test.cfg" }) with
              lock := { demoStBad.lock with readers := demoStBad.lock.readers + 1 } }))
      ∧ WriteFile { (setTree demoStBad 0 { demoConf with configFile := "test.cfg" }) with
            lock := { demoStBad.lock with readers := demoStBad.lock.readers + 1 } } 0
          = .blocks) :=
  ⟨⟨rfl, rfl, rfl, rfl, rfl⟩,
    guard_leaked_on_error_paths demoStBad 0 demoConf "test.cfg" rfl rfl rfl rfl rfl⟩

end LibCfg
